import Mathlib

/-!
Verification of the Fiscal Compass budget/spending aggregation core.

The development shallowly embeds the spending aggregation logic of the
application: the period resolver, the spend aggregator, the budget
progress calculator and the payment simulator, translated from
`src/app/spending/page.tsx` (PaymentsPage onSubmit), the budgets page
(`calculateSpentAmount`, `fetchUserBudgetsAndDetails`) and
`lib/utils.ts` (`calculatePercentage`).  Dates are modelled at calendar
granularity; amounts are modelled as rationals.
-/

namespace FiscalCompass

/-- A calendar date, year/month/day, as the application manipulates dates
through `date-fns` helpers at day granularity. -/
structure SDate where
  year : Nat
  month : Nat
  day : Nat
deriving DecidableEq, Repr

/-- Gregorian leap-year test, as implemented by the JS `Date` calendar. -/
def isLeapYear (y : Nat) : Bool :=
  (y % 4 == 0 && y % 100 != 0) || (y % 400 == 0)

/-- Number of days in a month of a given year (Gregorian calendar, the
calendar used by the JS `Date` object and by `date-fns`). -/
def daysInMonth (y m : Nat) : Nat :=
  if m = 2 then (if isLeapYear y then 29 else 28)
  else if m = 4 ∨ m = 6 ∨ m = 9 ∨ m = 11 then 30
  else 31

/-- A representable date is a real calendar date: month in 1..12 and day
within the month.  Every date produced by a successful `new Date(s)`
parse of a transaction date string satisfies this. -/
def validDate (d : SDate) : Prop :=
  1 ≤ d.month ∧ d.month ≤ 12 ∧ 1 ≤ d.day ∧ d.day ≤ daysInMonth d.year d.month

instance (d : SDate) : Decidable (validDate d) := by
  unfold validDate; infer_instance

/-- Chronological order on calendar dates (the order on the underlying
timestamps compared by `isWithinInterval`). -/
def SDate.le (a b : SDate) : Prop :=
  a.year < b.year ∨
    (a.year = b.year ∧
      (a.month < b.month ∨ (a.month = b.month ∧ a.day ≤ b.day)))

instance (a b : SDate) : Decidable (SDate.le a b) := by
  unfold SDate.le; infer_instance

/-- A closed date interval, as passed to `isWithinInterval` via its
`start`/`end` fields.  The field `end` is a Lean keyword, hence `stop`. -/
structure DateInterval where
  start : SDate
  stop : SDate
deriving DecidableEq, Repr

/-- Embedding of `date-fns` `isWithinInterval(new Date(t.date), {start, end})`:
the date argument is the result of parsing the stored date string, `none`
standing for an unparseable string (JS `Invalid Date`).  `isWithinInterval`
compares timestamps with `>=` and `<=`, both inclusive; on an invalid date
both comparisons are against `NaN` and therefore false, so the function
returns `false` without throwing. -/
def isWithinInterval (d : Option SDate) (iv : DateInterval) : Bool :=
  match d with
  | none => false
  | some d => decide (SDate.le iv.start d) && decide (SDate.le d iv.stop)

/-- Transaction type tag, `'expense' | 'income'` in `lib/types.ts`. -/
inductive TxType where
  | expense
  | income
deriving DecidableEq, Repr

/-- A transaction record (`lib/types.ts`).  The `date` field holds the
parse of the stored date string: `some d` for a string that `new Date`
accepts, `none` for a malformed one. -/
structure Transaction where
  id : String
  description : String
  amount : ℚ
  type : TxType
  category : String
  date : Option SDate
deriving DecidableEq, Repr

/-- Budget period tag, `'monthly' | 'weekly' | 'yearly'` in `lib/types.ts`. -/
inductive Period where
  | monthly
  | weekly
  | yearly
deriving DecidableEq, Repr

/-- A budget record (`lib/types.ts`). -/
structure Budget where
  id : String
  category : String
  limit : ℚ
  period : Period
deriving DecidableEq, Repr

/-- `date-fns` `startOfMonth`: first calendar day of the month of `d`. -/
def startOfMonth (d : SDate) : SDate := ⟨d.year, d.month, 1⟩

/-- `date-fns` `endOfMonth`: last calendar day of the month of `d`. -/
def endOfMonth (d : SDate) : SDate := ⟨d.year, d.month, daysInMonth d.year d.month⟩

/-- Cumulated number of days of the months strictly before month `m` of
year `y`. -/
def daysBeforeMonth (y m : Nat) : Nat :=
  (List.range (m - 1)).foldl (fun s i => s + daysInMonth y (i + 1)) 0

/-- Number of leap years strictly before year `y` (proleptic Gregorian). -/
def leapsBefore (y : Nat) : Nat :=
  (y - 1) / 4 - (y - 1) / 100 + (y - 1) / 400

/-- Days elapsed since 0001-01-01 (proleptic Gregorian day number). -/
def dayNumber (d : SDate) : Nat :=
  365 * (d.year - 1) + leapsBefore d.year + daysBeforeMonth d.year d.month + (d.day - 1)

/-- JS `Date.prototype.getDay`: day of week, 0 = Sunday .. 6 = Saturday.
0001-01-01 was a Monday in the proleptic Gregorian calendar. -/
def getDay (d : SDate) : Nat := (dayNumber d + 1) % 7

/-- Shift a date back by `k ≤ 6` days, with JS `setDate` month rollover:
models `now.setDate(now.getDate() - now.getDay())`. -/
def backDays (d : SDate) (k : Nat) : SDate :=
  if k < d.day then ⟨d.year, d.month, d.day - k⟩
  else if d.month = 1 then ⟨d.year - 1, 12, daysInMonth (d.year - 1) 12 + d.day - k⟩
  else ⟨d.year, d.month - 1, daysInMonth d.year (d.month - 1) + d.day - k⟩

/-- Shift a date forward by 6 days, with JS `setDate` month rollover:
models `now.setDate(now.getDate() - now.getDay() + 6)` evaluated after
`now` has already been set to the Sunday of its week. -/
def forwardSixDays (d : SDate) : SDate :=
  if d.day + 6 ≤ daysInMonth d.year d.month then ⟨d.year, d.month, d.day + 6⟩
  else if d.month = 12 then ⟨d.year + 1, 1, d.day + 6 - daysInMonth d.year 12⟩
  else ⟨d.year, d.month + 1, d.day + 6 - daysInMonth d.year d.month⟩

/-- Sunday of the calendar week containing `d`: `date-fns` `startOfWeek`
with its default Sunday week start, and also the value of the budgets
page's `new Date(now.setDate(now.getDate() - now.getDay()))`. -/
def startOfWeek (d : SDate) : SDate := backDays d (getDay d)

/-- Saturday of the calendar week containing `d`: `date-fns` `endOfWeek`
with its default Sunday week start, and also the value of the budgets
page's second `setDate` call (made on the already-shifted `now`). -/
def endOfWeek (d : SDate) : SDate := forwardSixDays (startOfWeek d)

/-- Spend aggregator: `transactions.filter(t => t.category === category &&
t.type === 'expense' && isWithinInterval(new Date(t.date), {start, end}))
.reduce((sum, t) => sum + t.amount, 0)`, the filter-and-sum used by
PaymentsPage `onSubmit` (with the current-month interval) and by
`getTransactionsForPeriod` followed by the budgets page's reduce (with
the interval resolved from the budget period). -/
def spendAggregate (transactions : List Transaction) (category : String)
    (iv : DateInterval) : ℚ :=
  (transactions.filter (fun t : Transaction =>
      t.category == category && t.type == TxType.expense &&
        isWithinInterval t.date iv)).foldl (fun sum t => sum + t.amount) 0

/-- PaymentsPage `onSubmit`'s `spentThisMonth`: the spend aggregation over
the current month of the reference date `now`. -/
def spentThisMonth (transactions : List Transaction) (category : String)
    (now : SDate) : ℚ :=
  spendAggregate transactions category ⟨startOfMonth now, endOfMonth now⟩

/-- The budgets page's `calculateSpentAmount`, translated branch by
branch.  The transactions are first filtered by category and expense
type; the period filter then depends on `budget.period`:
monthly filters by the current month; weekly computes the Sunday and
Saturday of the current week via the two `now.setDate` calls but then
filters with `{start: startOfMonth(weekStart), end: endOfMonth(weekEnd)}`;
yearly compares `getYear(new Date(t.date))` with `getYear(now)` (false
for an Invalid Date, whose year is NaN). -/
def calculateSpentAmount (transactions : List Transaction) (budget : Budget)
    (now : SDate) : ℚ :=
  let relevant := transactions.filter (fun t : Transaction =>
    t.category == budget.category && t.type == TxType.expense)
  let filtered : List Transaction :=
    match budget.period with
    | Period.monthly =>
        relevant.filter (fun t : Transaction =>
          isWithinInterval t.date ⟨startOfMonth now, endOfMonth now⟩)
    | Period.weekly =>
        let weekStart := startOfWeek now
        let weekEnd := endOfWeek now
        relevant.filter (fun t : Transaction =>
          isWithinInterval t.date ⟨startOfMonth weekStart, endOfMonth weekEnd⟩)
    | Period.yearly =>
        relevant.filter (fun t : Transaction =>
          match t.date with
          | none => false
          | some d => d.year == now.year)
  filtered.foldl (fun sum t => sum + t.amount) 0

/-- Period resolution of `fetchUserBudgetsAndDetails`: monthly uses
`startOfMonth`/`endOfMonth`, weekly uses `startOfWeek`/`endOfWeek`
(Sunday-start by `date-fns` default), yearly uses
`new Date(getYear(today), 0, 1)` and `new Date(getYear(today), 11, 31)`. -/
def resolveBudgetInterval (period : Period) (today : SDate) : DateInterval :=
  match period with
  | Period.monthly => ⟨startOfMonth today, endOfMonth today⟩
  | Period.weekly => ⟨startOfWeek today, endOfWeek today⟩
  | Period.yearly => ⟨⟨today.year, 1, 1⟩, ⟨today.year, 12, 31⟩⟩

/-- JS `Math.round`: nearest integer, ties toward positive infinity. -/
def mathRound (x : ℚ) : ℤ := ⌊x + 1 / 2⌋

/-- `lib/utils.ts` `calculatePercentage`: `if (total === 0) return 0;
return Math.round((current / total) * 100);`. -/
def calculatePercentage (current total : ℚ) : ℤ :=
  if total = 0 then 0 else mathRound (current / total * 100)

/-- The three terminal outcomes of the payment simulation, as rendered by
the three toast branches of PaymentsPage `onSubmit`. -/
inductive SimOutcome where
  | noBudgetFound
  | withinBudget
  | overBudget (overage : ℚ)
deriving DecidableEq, Repr

/-- PaymentsPage `onSubmit`: find a budget via `budgets.find(b =>
b.category === data.category && b.period === 'monthly')`; with no match
report the no-budget outcome; otherwise aggregate the current month's
spend, compute `remainingBudget = limit - spentThisMonth`, and classify
`data.amount <= remainingBudget` as within budget, the other case as over
budget by `data.amount - remainingBudget`. -/
def simulatePayment (budgets : List Budget) (transactions : List Transaction)
    (amount : ℚ) (category : String) (now : SDate) : SimOutcome :=
  match budgets.find? (fun b =>
      b.category == category && b.period == Period.monthly) with
  | none => SimOutcome.noBudgetFound
  | some budgetForCategory =>
      let spent := spentThisMonth transactions category now
      let remainingBudget := budgetForCategory.limit - spent
      if amount ≤ remainingBudget then SimOutcome.withinBudget
      else SimOutcome.overBudget (amount - remainingBudget)

/-- The collections PaymentsPage reads: it destructures only the values
(no setters) from its two stores, `const [budgets] = useLocalStorage(...)`
and `const [transactions] = useLocalStorage(...)`. -/
structure SimState where
  budgets : List Budget
  transactions : List Transaction
deriving DecidableEq, Repr

/-- One submission of the payment-simulation form as a state transformer:
the handler computes an outcome from the snapshot of the two collections
and performs no write to either store (its only effects are toasts,
console logging and a form reset), so the state component is returned
unchanged. -/
def simulateStep (s : SimState) (amount : ℚ) (category : String)
    (now : SDate) : SimState × SimOutcome :=
  (s, simulatePayment s.budgets s.transactions amount category now)

/-- Spec-side contribution of one transaction to the aggregated spend:
its amount when it is an expense of the target category dated (with a
parseable date) inside the interval, inclusive of both endpoints, and
zero otherwise.  This definition follows the spec's words for comparison
with `spendAggregate`. -/
def specContribution (t : Transaction) (category : String)
    (iv : DateInterval) : ℚ :=
  match t.date with
  | none => 0
  | some d =>
      if t.type = TxType.expense ∧ t.category = category ∧
          SDate.le iv.start d ∧ SDate.le d iv.stop then t.amount
      else 0

/-- Concrete transactions of the spec's worked scenario: a 40 Food
expense on 2024-03-05 and a 10 Food expense on 2024-02-20. -/
def demoTransactions : List Transaction :=
  [⟨"t1", "groceries", 40, TxType.expense, "Food", some ⟨2024, 3, 5⟩⟩,
   ⟨"t2", "groceries", 10, TxType.expense, "Food", some ⟨2024, 2, 20⟩⟩]

/-- The spec scenario's budget: Food, limit 30, monthly. -/
def demoFoodBudget : Budget := ⟨"b1", "Food", 30, Period.monthly⟩

/-- A Food expense of 5 dated 2024-03-01, outside the calendar week of
2024-03-10 but inside its month. -/
def weeklyTx : Transaction :=
  ⟨"t3", "snack", 5, TxType.expense, "Food", some ⟨2024, 3, 1⟩⟩

/-- A weekly Food budget used to exercise the weekly aggregation branch. -/
def weeklyFoodBudget : Budget := ⟨"b2", "Food", 30, Period.weekly⟩

/-- A transaction whose stored date string does not parse. -/
def malformedTx : Transaction :=
  ⟨"t4", "typo", 9, TxType.expense, "Food", none⟩

lemma foldl_add_amount (l : List Transaction) (a : ℚ) :
    l.foldl (fun sum t => sum + t.amount) a = a + (l.map Transaction.amount).sum := by
  induction l generalizing a with
  | nil => simp
  | cons x xs ih => simp [List.foldl_cons, ih, add_assoc]

lemma sum_map_filter (l : List Transaction) (p : Transaction → Bool) :
    ((l.filter p).map Transaction.amount).sum
      = (l.map (fun t => if p t then t.amount else 0)).sum := by
  induction l with
  | nil => simp
  | cons x xs ih => by_cases h : p x <;> simp [List.filter_cons, h, ih]

lemma contribution_ite_eq_spec (t : Transaction) (category : String)
    (iv : DateInterval) :
    (if t.category == category && (t.type == TxType.expense) &&
        isWithinInterval t.date iv then t.amount else 0)
      = specContribution t category iv := by
  cases hd : t.date with
  | none => simp [specContribution, isWithinInterval, hd]
  | some d =>
      by_cases h1 : t.category = category <;>
        by_cases h2 : t.type = TxType.expense <;>
          by_cases h3 : SDate.le iv.start d <;>
            by_cases h4 : SDate.le d iv.stop <;>
              simp [specContribution, isWithinInterval, hd, h1, h2, h3, h4]

lemma spendAggregate_eq_sum (transactions : List Transaction) (category : String)
    (iv : DateInterval) :
    spendAggregate transactions category iv
      = (transactions.map (fun t => specContribution t category iv)).sum := by
  unfold spendAggregate
  rw [foldl_add_amount, zero_add, sum_map_filter]
  refine congrArg List.sum (List.map_congr_left fun t _ => ?_)
  exact contribution_ite_eq_spec t category iv

/-- Claim C1: the spend aggregator returns exactly the sum of the amounts
of the expense transactions of the target category (exact string match)
dated inside the interval, both endpoints included; other transactions
contribute nothing, and the result is 0 for an empty collection or when
no transaction matches. -/
theorem spend_aggregator_sums_exact_matches :
    (∀ (transactions : List Transaction) (category : String) (iv : DateInterval),
        spendAggregate transactions category iv
          = (transactions.map (fun t => specContribution t category iv)).sum)
    ∧ (∀ (category : String) (iv : DateInterval), spendAggregate [] category iv = 0)
    ∧ (∀ (transactions : List Transaction) (category : String) (iv : DateInterval),
        (∀ t ∈ transactions, specContribution t category iv = 0) →
        spendAggregate transactions category iv = 0) := by
  refine ⟨spendAggregate_eq_sum, ?_, ?_⟩
  · intro category iv
    simp [spendAggregate_eq_sum]
  · intro transactions category iv h
    rw [spendAggregate_eq_sum]
    exact List.sum_eq_zero (by simpa using h)

/-- Witness for C1: a collection holding one income transaction and one
expense of another category aggregates to 0 for the Food category. -/
theorem spend_aggregator_sums_exact_matches_witness :
    spendAggregate
        [⟨"w1", "salary", 50, TxType.income, "Food", some ⟨2024, 3, 5⟩⟩,
         ⟨"w2", "bus", 7, TxType.expense, "Transport", some ⟨2024, 3, 6⟩⟩]
        "Food" ⟨⟨2024, 3, 1⟩, ⟨2024, 3, 31⟩⟩ = 0 :=
  spend_aggregator_sums_exact_matches.2.2 _ "Food" _ (by
    intro t ht
    simp only [List.mem_cons, List.not_mem_nil, or_false] at ht
    rcases ht with h | h <;> subst h <;> simp [specContribution])

/-- Claim C2: the budget progress calculator returns
round(spent / limit * 100) for a nonzero limit and 0 for a zero limit,
with no upper clamp; in particular 0/100 gives 0, 100/100 gives 100,
150/100 gives 150, and anything over limit 0 gives 0. -/
theorem budget_progress_calculator_contract :
    (∀ spent lim : ℚ, lim ≠ 0 →
        calculatePercentage spent lim = mathRound (spent / lim * 100))
    ∧ (∀ spent : ℚ, calculatePercentage spent 0 = 0)
    ∧ calculatePercentage 0 100 = 0
    ∧ calculatePercentage 100 100 = 100
    ∧ calculatePercentage 150 100 = 150 := by
  refine ⟨?_, ?_, ?_, ?_, ?_⟩
  · intro spent lim h
    simp [calculatePercentage, h]
  · intro spent
    simp [calculatePercentage]
  · norm_num [calculatePercentage, mathRound]
  · norm_num [calculatePercentage, mathRound]
  · norm_num [calculatePercentage, mathRound]

/-- Witness for C2: the nonzero-limit clause applied at spent 40,
limit 30, the spec's over-budget progress example. -/
theorem budget_progress_calculator_contract_witness :
    calculatePercentage 40 30 = mathRound (40 / 30 * 100) :=
  budget_progress_calculator_contract.1 40 30 (by norm_num)

lemma filter_skip_middle (pre post : List Transaction) (t : Transaction)
    (p : Transaction → Bool) (h : p t = false) :
    (pre ++ t :: post).filter p = (pre ++ post).filter p := by
  simp [List.filter_append, List.filter_cons, h]

/-- Claim C3: with a matching budget, the simulator classifies by
remaining = limit - spent: within budget exactly when the amount is at
most the remaining, otherwise over budget by amount - remaining; on the
spec scenario (Food budget 30 monthly, expenses 40 and 10, now
2024-03-10, amount 25) the remaining is -10 and the outcome is over
budget by 35. -/
theorem payment_simulator_remaining_classification :
    (∀ (budgets : List Budget) (transactions : List Transaction) (amount : ℚ)
        (category : String) (now : SDate) (b : Budget),
        budgets.find? (fun b =>
            b.category == category && b.period == Period.monthly) = some b →
        simulatePayment budgets transactions amount category now =
          if amount ≤ b.limit - spentThisMonth transactions category now
          then SimOutcome.withinBudget
          else SimOutcome.overBudget
            (amount - (b.limit - spentThisMonth transactions category now)))
    ∧ spentThisMonth demoTransactions "Food" ⟨2024, 3, 10⟩ = 40
    ∧ demoFoodBudget.limit - spentThisMonth demoTransactions "Food" ⟨2024, 3, 10⟩ = -10
    ∧ simulatePayment [demoFoodBudget] demoTransactions 25 "Food" ⟨2024, 3, 10⟩
        = SimOutcome.overBudget 35 := by
  have hspent : spentThisMonth demoTransactions "Food" ⟨2024, 3, 10⟩ = 40 := by
    simp [spentThisMonth, spendAggregate, isWithinInterval, demoTransactions,
      startOfMonth, endOfMonth, SDate.le, daysInMonth, isLeapYear]
  refine ⟨?_, hspent, ?_, ?_⟩
  · intro budgets transactions amount category now b h
    simp [simulatePayment, h]
  · rw [hspent]
    norm_num [demoFoodBudget]
  · simp [simulatePayment, demoFoodBudget, hspent]
    norm_num

/-- Witness for C3: the classification clause applied to the scenario
budget list, whose lookup finds the Food monthly budget. -/
theorem payment_simulator_remaining_classification_witness :
    simulatePayment [demoFoodBudget] demoTransactions 25 "Food" ⟨2024, 3, 10⟩
      = if (25 : ℚ) ≤ demoFoodBudget.limit -
            spentThisMonth demoTransactions "Food" ⟨2024, 3, 10⟩
        then SimOutcome.withinBudget
        else SimOutcome.overBudget (25 - (demoFoodBudget.limit -
            spentThisMonth demoTransactions "Food" ⟨2024, 3, 10⟩)) :=
  payment_simulator_remaining_classification.1 [demoFoodBudget] demoTransactions
    25 "Food" ⟨2024, 3, 10⟩ demoFoodBudget (by rfl)

/-- Claim C4: the simulator looks up a budget by exact category equality
and the hard-coded period monthly; when no such budget exists the result
is the no-budget-found outcome, a reported classification rather than an
error (the embedded function is total). -/
theorem payment_simulator_no_budget_outcome :
    ∀ (budgets : List Budget) (transactions : List Transaction) (amount : ℚ)
      (category : String) (now : SDate),
      (∀ b ∈ budgets, ¬(b.category = category ∧ b.period = Period.monthly)) →
      simulatePayment budgets transactions amount category now
        = SimOutcome.noBudgetFound := by
  intro budgets transactions amount category now h
  have hfind : budgets.find? (fun b =>
      b.category == category && b.period == Period.monthly) = none := by
    rw [List.find?_eq_none]
    intro b hb
    simpa using h b hb
  simp [simulatePayment, hfind]

/-- Witness for C4: a Food budget configured weekly does not satisfy the
monthly lookup, so a Food payment reports no budget found. -/
theorem payment_simulator_no_budget_outcome_witness :
    simulatePayment [⟨"w", "Food", 100, Period.weekly⟩] [] 5 "Food" ⟨2024, 3, 10⟩
      = SimOutcome.noBudgetFound :=
  payment_simulator_no_budget_outcome _ _ _ _ _ (by
    intro b hb
    simp only [List.mem_singleton] at hb
    subst hb
    simp)

/-- Claim C8: a simulation step returns the budget and transaction
collections unchanged, and repeating the same simulation on the resulting
state yields the same outcome. -/
theorem simulation_leaves_collections_unchanged :
    ∀ (s : SimState) (amount : ℚ) (category : String) (now : SDate),
      (simulateStep s amount category now).1 = s
      ∧ (simulateStep (simulateStep s amount category now).1 amount category now).2
          = (simulateStep s amount category now).2 :=
  fun _ _ _ _ => ⟨rfl, rfl⟩

/-- Claim C9: a transaction whose date string does not parse is silently
excluded from both spend aggregations: removing it from the collection
does not change the result, and the (total) aggregation functions return
plain sums with no skipped-record count. -/
theorem malformed_date_transaction_excluded :
    ∀ (pre post : List Transaction) (t : Transaction) (category : String)
      (iv : DateInterval) (budget : Budget) (now : SDate),
      t.date = none →
      spendAggregate (pre ++ t :: post) category iv
          = spendAggregate (pre ++ post) category iv
      ∧ calculateSpentAmount (pre ++ t :: post) budget now
          = calculateSpentAmount (pre ++ post) budget now := by
  intro pre post t category iv budget now ht
  constructor
  · unfold spendAggregate
    congr 1
    exact filter_skip_middle _ _ _ _ (by simp [isWithinInterval, ht])
  · rcases hb : budget.period with _ | _ | _ <;>
      simp only [calculateSpentAmount, hb] <;>
        (congr 1
         rw [List.filter_filter, List.filter_filter]
         exact filter_skip_middle _ _ _ _ (by simp [isWithinInterval, ht]))

/-- Witness for C9: a malformed-date transaction aggregates exactly as
the empty collection does. -/
theorem malformed_date_transaction_excluded_witness :
    spendAggregate [malformedTx] "Food" ⟨⟨2024, 3, 1⟩, ⟨2024, 3, 31⟩⟩
        = spendAggregate [] "Food" ⟨⟨2024, 3, 1⟩, ⟨2024, 3, 31⟩⟩
      ∧ calculateSpentAmount [malformedTx] demoFoodBudget ⟨2024, 3, 10⟩
        = calculateSpentAmount [] demoFoodBudget ⟨2024, 3, 10⟩ :=
  malformed_date_transaction_excluded [] [] malformedTx "Food"
    ⟨⟨2024, 3, 1⟩, ⟨2024, 3, 31⟩⟩ demoFoodBudget ⟨2024, 3, 10⟩ rfl

/-- Claim C10: when several budgets match the simulator's lookup, the
first match in collection order determines the limit and the outcome;
the classification does not depend on the budgets after it. -/
theorem first_matching_budget_determines_outcome :
    ∀ (bs1 bs2 : List Budget) (b : Budget) (transactions : List Transaction)
      (amount : ℚ) (category : String) (now : SDate),
      (∀ b' ∈ bs1, ¬(b'.category = category ∧ b'.period = Period.monthly)) →
      b.category = category → b.period = Period.monthly →
      simulatePayment (bs1 ++ b :: bs2) transactions amount category now =
        if amount ≤ b.limit - spentThisMonth transactions category now
        then SimOutcome.withinBudget
        else SimOutcome.overBudget
          (amount - (b.limit - spentThisMonth transactions category now)) := by
  intro bs1 bs2 b transactions amount category now h hc hp
  have h1 : bs1.find? (fun b =>
      b.category == category && b.period == Period.monthly) = none := by
    rw [List.find?_eq_none]
    intro x hx
    simpa using h x hx
  have h2 : (bs1 ++ b :: bs2).find? (fun b =>
      b.category == category && b.period == Period.monthly) = some b := by
    rw [List.find?_append, h1]
    simp [List.find?_cons, hc, hp]
  simp [simulatePayment, h2]

/-- Duplicate Food monthly budget with a different limit, placed after
the first one in the witness below. -/
def dupFoodBudget : Budget := ⟨"b9", "Food", 1000, Period.monthly⟩

/-- Witness for C10: with a duplicate Food monthly budget of limit 1000
after the limit-30 one, the outcome is still computed from limit 30. -/
theorem first_matching_budget_determines_outcome_witness :
    simulatePayment [demoFoodBudget, dupFoodBudget] [] 10 "Food" ⟨2024, 3, 10⟩
      = if (10 : ℚ) ≤ demoFoodBudget.limit - spentThisMonth [] "Food" ⟨2024, 3, 10⟩
        then SimOutcome.withinBudget
        else SimOutcome.overBudget
          (10 - (demoFoodBudget.limit - spentThisMonth [] "Food" ⟨2024, 3, 10⟩)) :=
  first_matching_budget_determines_outcome [] [dupFoodBudget] demoFoodBudget []
    10 "Food" ⟨2024, 3, 10⟩ (by simp) rfl rfl

/-- Claim C5 (failing): for now = 2024-03-10 the calendar week is
2024-03-10 through 2024-03-16 (the two `setDate` computations agree), yet
the weekly branch of `calculateSpentAmount` counts a Food expense dated
2024-03-01 — a date outside that week — because it filters with
`startOfMonth(weekStart)` and `endOfMonth(weekEnd)` instead of the week
bounds it just computed. -/
theorem weekly_aggregation_exceeds_calendar_week :
    calculateSpentAmount [weeklyTx] weeklyFoodBudget ⟨2024, 3, 10⟩ = 5
    ∧ startOfWeek ⟨2024, 3, 10⟩ = ⟨2024, 3, 10⟩
    ∧ endOfWeek ⟨2024, 3, 10⟩ = ⟨2024, 3, 16⟩
    ∧ isWithinInterval weeklyTx.date
        ⟨startOfWeek ⟨2024, 3, 10⟩, endOfWeek ⟨2024, 3, 10⟩⟩ = false := by
  have h1 : startOfWeek ⟨2024, 3, 10⟩ = ⟨2024, 3, 10⟩ := by decide
  have h2 : endOfWeek ⟨2024, 3, 10⟩ = ⟨2024, 3, 16⟩ := by decide
  refine ⟨?_, h1, h2, by decide⟩
  simp [calculateSpentAmount, weeklyTx, weeklyFoodBudget, isWithinInterval,
    h1, h2, startOfMonth, endOfMonth, SDate.le, daysInMonth, isLeapYear]

lemma month_mem_iff (ref d : SDate) (hv : validDate d) :
    (SDate.le (startOfMonth ref) d ∧ SDate.le d (endOfMonth ref)) ↔
      (d.year = ref.year ∧ d.month = ref.month) := by
  obtain ⟨h1, h2, h3, h4⟩ := hv
  constructor
  · intro h
    simp only [SDate.le, startOfMonth, endOfMonth] at h
    omega
  · rintro ⟨hy, hm⟩
    have h4' : d.day ≤ daysInMonth ref.year ref.month := by
      rw [← hy, ← hm]; exact h4
    simp only [SDate.le, startOfMonth, endOfMonth]
    omega

/-- Claim C6: resolving a monthly budget yields the interval from the
first through the last calendar day of the reference month: membership
of a valid date in the resolved interval is exactly agreement on year
and month, and for 2024-02-15 the interval is 2024-02-01 through
2024-02-29. -/
theorem monthly_resolution_full_month :
    (∀ ref : SDate, resolveBudgetInterval Period.monthly ref
        = ⟨⟨ref.year, ref.month, 1⟩,
           ⟨ref.year, ref.month, daysInMonth ref.year ref.month⟩⟩)
    ∧ (∀ ref d : SDate, validDate d →
        ((SDate.le (startOfMonth ref) d ∧ SDate.le d (endOfMonth ref)) ↔
          (d.year = ref.year ∧ d.month = ref.month)))
    ∧ resolveBudgetInterval Period.monthly ⟨2024, 2, 15⟩
        = ⟨⟨2024, 2, 1⟩, ⟨2024, 2, 29⟩⟩ :=
  ⟨fun _ => rfl, month_mem_iff, by decide⟩

/-- Witness for C6: 2024-02-29 is a valid date and lies in the interval
resolved for 2024-02-15 exactly because year and month agree. -/
theorem monthly_resolution_full_month_witness :
    validDate ⟨2024, 2, 29⟩
    ∧ ((SDate.le (startOfMonth ⟨2024, 2, 15⟩) ⟨2024, 2, 29⟩
          ∧ SDate.le ⟨2024, 2, 29⟩ (endOfMonth ⟨2024, 2, 15⟩)) ↔
        ((SDate.mk 2024 2 29).year = (SDate.mk 2024 2 15).year
          ∧ (SDate.mk 2024 2 29).month = (SDate.mk 2024 2 15).month)) :=
  ⟨by decide, monthly_resolution_full_month.2.1 ⟨2024, 2, 15⟩ ⟨2024, 2, 29⟩ (by decide)⟩

lemma year_mem_iff (now d : SDate) (hv : validDate d) :
    (SDate.le ⟨now.year, 1, 1⟩ d ∧ SDate.le d ⟨now.year, 12, 31⟩) ↔
      d.year = now.year := by
  obtain ⟨h1, h2, h3, h4⟩ := hv
  have h12 : d.month = 12 → d.day ≤ 31 := by
    intro h
    rw [h] at h4
    simpa [daysInMonth] using h4
  simp only [SDate.le]
  omega

lemma year_filter_eq_interval_filter (now : SDate) (t : Transaction)
    (hv : ∀ d, t.date = some d → validDate d) :
    (match t.date with
      | none => false
      | some d => d.year == now.year)
      = isWithinInterval t.date ⟨⟨now.year, 1, 1⟩, ⟨now.year, 12, 31⟩⟩ := by
  cases hd : t.date with
  | none => simp [isWithinInterval]
  | some d =>
      have hiff := year_mem_iff now d (hv d hd)
      simp only [isWithinInterval]
      rw [Bool.eq_iff_iff]
      simp only [beq_iff_eq, Bool.and_eq_true, decide_eq_true_eq]
      exact hiff.symm

/-- Claim C7: resolving a yearly budget yields January 1 through
December 31 of the reference year, and the yearly branch of
`calculateSpentAmount` (which filters by year equality) aggregates
exactly the matching expense transactions dated in that interval. -/
theorem yearly_resolution_full_year :
    (∀ ref : SDate, resolveBudgetInterval Period.yearly ref
        = ⟨⟨ref.year, 1, 1⟩, ⟨ref.year, 12, 31⟩⟩)
    ∧ (∀ (transactions : List Transaction) (budget : Budget) (now : SDate),
        budget.period = Period.yearly →
        (∀ t ∈ transactions, ∀ d, t.date = some d → validDate d) →
        calculateSpentAmount transactions budget now
          = spendAggregate transactions budget.category
              ⟨⟨now.year, 1, 1⟩, ⟨now.year, 12, 31⟩⟩) := by
  refine ⟨fun _ => rfl, ?_⟩
  intro transactions budget now hb hv
  simp only [calculateSpentAmount, hb]
  unfold spendAggregate
  congr 1
  rw [List.filter_filter]
  apply List.filter_congr
  intro t ht
  beta_reduce
  rw [year_filter_eq_interval_filter now t (hv t ht)]
  cases isWithinInterval t.date ⟨⟨now.year, 1, 1⟩, ⟨now.year, 12, 31⟩⟩ <;>
    cases t.category == budget.category <;>
      cases t.type == TxType.expense <;> rfl

/-- Witness for C7: on the scenario transactions, a yearly Food budget at
reference 2024-03-10 aggregates over the 2024 calendar year. -/
theorem yearly_resolution_full_year_witness :
    calculateSpentAmount demoTransactions ⟨"by", "Food", 30, Period.yearly⟩ ⟨2024, 3, 10⟩
      = spendAggregate demoTransactions "Food" ⟨⟨2024, 1, 1⟩, ⟨2024, 12, 31⟩⟩ :=
  yearly_resolution_full_year.2 demoTransactions ⟨"by", "Food", 30, Period.yearly⟩
    ⟨2024, 3, 10⟩ rfl (by
      intro t ht d hd
      simp only [demoTransactions, List.mem_cons, List.not_mem_nil, or_false] at ht
      rcases ht with rfl | rfl <;> (cases hd; decide))

end FiscalCompass
